import Mathlib

/-!
Verification of the MCP Azure Functions tool handlers
(`src/function_app.py`) against their natural-language specification.

The Python handlers are shallowly embedded as follows.

* Python/JSON values are modelled by the inductive `PyVal` (JSON numbers are
  modelled as integers; no claim depends on fractional values).
* Exceptions are modelled by `Except PyErr`; a handler body that can raise is
  a Lean function returning `Except PyErr String`.
* The incoming `context` string is handled by `json.loads(context)` (Python
  stdlib).  The handlers are modelled as functions of the *outcome* of that
  parse, `Except PyErr PyVal`: a `.error` input models a context string that
  is not valid JSON, an `.ok` input models the parsed document.
* Each outbound HTTP request (`httpx` client `get` wrapped in
  `try/except Exception: data = None`) is modelled by an oracle
  `net : String → PyVal` mapping the requested URL to the value the Python
  variable receives after the `try` block: `.none` covers both a raised
  transport/HTTP-status/JSON-decoding exception and a literal JSON `null`
  body, which Python cannot distinguish at this point.  The `yfinance`
  lookup `yf.Ticker(sym).info` is modelled by an oracle
  `yf : String → Except PyErr PyVal` (it may raise, and any exception is
  caught by the handler's top-level `except`).
* Each handler additionally returns the list of external requests it
  performed (the URLs fetched, respectively the ticker symbols queried), so
  that call-count properties can be stated.
* `str.upper`/`str.strip` are modelled on the ASCII fragment (table of the
  26 letters, the six ASCII whitespace characters); every string any claim
  evaluates them on is ASCII.
* `json.dumps` is modelled with Python's default separators; the `indent=2`
  pretty-printing of the success payload of `get_stockprice` is elided
  (no claim inspects whitespace of that payload).
-/

/-- Python/JSON values as produced by `json.loads` / consumed by the handlers. -/
inductive PyVal where
  | none : PyVal
  | bool : Bool → PyVal
  | int : Int → PyVal
  | str : String → PyVal
  | list : List PyVal → PyVal
  | dict : List (String × PyVal) → PyVal

/-- Python exceptions that the embedded code can raise. -/
inductive PyErr where
  | jsonDecodeError : String → PyErr
  | attributeError : String → PyErr
  | keyError : String → PyErr
  | typeError : String → PyErr

/-- Python truthiness (`bool(v)`): `None`, `False`, `0`, `""`, `[]`, `{}` are falsy. -/
def PyVal.truthy : PyVal → Bool
  | .none => false
  | .bool b => b
  | .int n => n != 0
  | .str s => s != ""
  | .list xs => !xs.isEmpty
  | .dict kvs => !kvs.isEmpty

/-- Name of the Python type of a value, as used in exception messages. -/
def pyTypeName : PyVal → String
  | .none => "NoneType"
  | .bool _ => "bool"
  | .int _ => "int"
  | .str _ => "str"
  | .list _ => "list"
  | .dict _ => "dict"

/-- First binding of key `k` in a Python dict (dicts have unique keys; the
model keeps the first match, which agrees with `dict` semantics). -/
def pyLookup (kvs : List (String × PyVal)) (k : String) : Option PyVal :=
  (kvs.find? (fun p => p.1 == k)).map (fun p => p.2)

/-- Python `v.get(k, d)`: total on dicts, `AttributeError` on any other type. -/
def pyGetD (v : PyVal) (k : String) (d : PyVal) : Except PyErr PyVal :=
  match v with
  | .dict kvs => .ok ((pyLookup kvs k).getD d)
  | other =>
      .error (.attributeError
        ("\x27" ++ pyTypeName other ++ "\x27 object has no attribute \x27get\x27"))

/-- Python `k in v` for a string `k`: key test on dicts, membership on lists,
substring test on strings, `TypeError` otherwise. -/
def pyContains (v : PyVal) (k : String) : Except PyErr Bool :=
  match v with
  | .dict kvs => .ok (pyLookup kvs k).isSome
  | .list xs => .ok (xs.any (fun x => match x with | .str s => s == k | _ => false))
  | .str s => .ok (k == "" || (s.splitOn k).length ≥ 2)
  | other =>
      .error (.typeError ("argument of type \x27" ++ pyTypeName other ++ "\x27 is not iterable"))

/-- Python `v[k]` for a string key `k`: dict subscription (`KeyError` when the
key is absent), `TypeError` on every non-dict value. -/
def pySubscript (v : PyVal) (k : String) : Except PyErr PyVal :=
  match v with
  | .dict kvs =>
      match pyLookup kvs k with
      | some x => .ok x
      | Option.none => .error (.keyError k)
  | .list _ => .error (.typeError "list indices must be integers or slices, not str")
  | .str _ => .error (.typeError "string indices must be integers")
  | other =>
      .error (.typeError ("\x27" ++ pyTypeName other ++ "\x27 object is not subscriptable"))

/-- Python iteration `[... for x in v]`: lists yield their elements, strings
their characters, dicts their keys; other values raise `TypeError`. -/
def pyIter : PyVal → Except PyErr (List PyVal)
  | .list xs => .ok xs
  | .str s => .ok (s.data.map (fun c => .str (String.mk [c])))
  | .dict kvs => .ok (kvs.map (fun p => .str p.1))
  | other =>
      .error (.typeError ("\x27" ++ pyTypeName other ++ "\x27 object is not iterable"))

/-- Python `v[:5]` followed by iteration, as in the forecast loop: a list
yields its first five elements, a string its first five characters; every
other value raises `TypeError` at the slice. -/
def pySliceIter5 : PyVal → Except PyErr (List PyVal)
  | .list xs => .ok (xs.take 5)
  | .str s => .ok ((s.data.take 5).map (fun c => .str (String.mk [c])))
  | other =>
      .error (.typeError ("\x27" ++ pyTypeName other ++ "\x27 object is not subscriptable"))

/-- Left-to-right effectful map, mirroring a Python list comprehension or
`for` loop that can raise: the first exception aborts the whole loop. -/
def mapExcept (f : PyVal → Except PyErr String) : List PyVal → Except PyErr (List String)
  | [] => .ok []
  | x :: xs =>
      match f x with
      | .error e => .error e
      | .ok s =>
          match mapExcept f xs with
          | .error e => .error e
          | .ok ss => .ok (s :: ss)

mutual
/-- Python `repr`, used by `str` on containers (string escaping elided; no
claim inspects the repr of a string containing quotes). -/
def pyRepr : PyVal → String
  | .none => "None"
  | .bool b => if b then "True" else "False"
  | .int n => toString n
  | .str s => "\x27" ++ s ++ "\x27"
  | .list xs => "[" ++ String.intercalate ", " (pyReprL xs) ++ "]"
  | .dict kvs => "\x7b" ++ String.intercalate ", " (pyReprKV kvs) ++ "\x7d"
/-- Reprs of the elements of a Python list. -/
def pyReprL : List PyVal → List String
  | [] => []
  | x :: xs => pyRepr x :: pyReprL xs
/-- Reprs of the entries of a Python dict. -/
def pyReprKV : List (String × PyVal) → List String
  | [] => []
  | (k, v) :: kvs => ("\x27" ++ k ++ "\x27: " ++ pyRepr v) :: pyReprKV kvs
end

/-- Python `str(v)`, as used by f-string interpolation. -/
def pyStr : PyVal → String
  | .str s => s
  | v => pyRepr v

mutual
/-- Python `json.dumps` with the default separators (`", "`, `": "`); string
escaping and the `indent=2` option are elided, as no claim inspects them. -/
def jsonDumps : PyVal → String
  | .none => "null"
  | .bool b => if b then "true" else "false"
  | .int n => toString n
  | .str s => "\"" ++ s ++ "\""
  | .list xs => "[" ++ String.intercalate ", " (jsonDumpsL xs) ++ "]"
  | .dict kvs => "\x7b" ++ String.intercalate ", " (jsonDumpsKV kvs) ++ "\x7d"
/-- Serialized elements of a JSON array. -/
def jsonDumpsL : List PyVal → List String
  | [] => []
  | x :: xs => jsonDumps x :: jsonDumpsL xs
/-- Serialized entries of a JSON object. -/
def jsonDumpsKV : List (String × PyVal) → List String
  | [] => []
  | (k, v) :: kvs => ("\"" ++ k ++ "\": " ++ jsonDumps v) :: jsonDumpsKV kvs
end

/-- The 26 ASCII lowercase letters. -/
def lowerChars : List Char :=
  ['a', 'b', 'c', 'd', 'e', 'f', 'g', 'h', 'i', 'j', 'k', 'l', 'm',
   'n', 'o', 'p', 'q', 'r', 's', 't', 'u', 'v', 'w', 'x', 'y', 'z']

/-- The 26 ASCII uppercase letters. -/
def upperChars : List Char :=
  ['A', 'B', 'C', 'D', 'E', 'F', 'G', 'H', 'I', 'J', 'K', 'L', 'M',
   'N', 'O', 'P', 'Q', 'R', 'S', 'T', 'U', 'V', 'W', 'X', 'Y', 'Z']

/-- ASCII fragment of Python `str.upper` at a single character: lowercase
letters map to their uppercase counterpart, everything else is unchanged. -/
def pyUpperChar (c : Char) : Char :=
  match (lowerChars.zip upperChars).find? (fun p => p.1 == c) with
  | some p => p.2
  | Option.none => c

/-- ASCII whitespace, the characters removed by Python `str.strip()`. -/
def pyIsSpace (c : Char) : Bool :=
  c = ' ' || c = '\t' || c = '\n' || c = '\r' || c = '\x0b' || c = '\x0c'

/-- Leading-whitespace removal (the front half of `str.strip`). -/
def stripL (l : List Char) : List Char := l.dropWhile pyIsSpace

/-- Trailing-whitespace removal (the back half of `str.strip`). -/
def stripR (l : List Char) : List Char := (l.reverse.dropWhile pyIsSpace).reverse

/-- Python `str.strip()` on the character list of a string. -/
def stripBoth (l : List Char) : List Char := stripR (stripL l)

/-- Python `s.upper()` (ASCII fragment). -/
def pyUpper (s : String) : String := String.mk (s.data.map pyUpperChar)

/-- Python `s.strip()` (ASCII whitespace). -/
def pyStrip (s : String) : String := String.mk (stripBoth s.data)

/-- The ticker normalization of `mcp_get_stockprice`:
`ticker_symbol.upper().strip()` (line 132 of `function_app.py`). -/
def pyNormalize (s : String) : String := pyStrip (pyUpper s)

/-- Python `v.upper().strip()` on an arbitrary value: only strings have an
`upper` attribute, every other type raises `AttributeError`. -/
def pyUpperStrip (v : PyVal) : Except PyErr String :=
  match v with
  | .str s => .ok (pyNormalize s)
  | other =>
      .error (.attributeError
        ("\x27" ++ pyTypeName other ++ "\x27 object has no attribute \x27upper\x27"))

/-- Base URL of the National Weather Service API (`NWS_API_BASE`). -/
def NWS_API_BASE : String := "https://api.weather.gov"

/-- User agent sent with every NWS request (`USER_AGENT`); the request
headers do not influence the modelled behaviour. -/
def USER_AGENT : String := "weather-app/1.0"

/-- The context payload shape `{"arguments": {...}}` the triggering host
sends, already parsed; used to state claims about well-formed invocations. -/
def mkCtx (argkvs : List (String × PyVal)) : Except PyErr PyVal :=
  .ok (.dict [("arguments", .dict argkvs)])

/-- The `hello_mcp` handler: ignores its context and returns the greeting. -/
def hello_mcp (_context : String) : String := "Hello I am MCPTool!"

/-- Alerts URL construction: `f"{NWS_API_BASE}/alerts/active/area/{state}"`. -/
def alerts_url (state : PyVal) : String :=
  NWS_API_BASE ++ "/alerts/active/area/" ++ pyStr state

/-- Points URL construction: `f"{NWS_API_BASE}/points/{latitude},{longitude}"`. -/
def points_url_of (latitude longitude : PyVal) : String :=
  NWS_API_BASE ++ "/points/" ++ pyStr latitude ++ "," ++ pyStr longitude

/-- The `format_alert` helper (lines 70-79): subscripts `feature["properties"]`
(which raises `KeyError` when absent) and then reads each field with
`props.get(key, default)`. -/
def format_alert (feature : PyVal) : Except PyErr String := do
  let props ← pySubscript feature "properties"
  let ev ← pyGetD props "event" (.str "Unknown")
  let ar ← pyGetD props "areaDesc" (.str "Unknown")
  let sev ← pyGetD props "severity" (.str "Unknown")
  let de ← pyGetD props "description" (.str "No description available")
  let ins ← pyGetD props "instruction" (.str "No specific instructions provided")
  pure ("\n        Event: " ++ pyStr ev ++
        "\n        Area: " ++ pyStr ar ++
        "\n        Severity: " ++ pyStr sev ++
        "\n        Description: " ++ pyStr de ++
        "\n        Instructions: " ++ pyStr ins ++
        "\n        ")

/-- One forecast period block of `mcp_get_weatherforecast` (lines 265-270);
each `period[...]` subscription can raise `KeyError`. -/
def format_forecast_period (period : PyVal) : Except PyErr String := do
  let nm ← pySubscript period "name"
  let tp ← pySubscript period "temperature"
  let tu ← pySubscript period "temperatureUnit"
  let ws ← pySubscript period "windSpeed"
  let wd ← pySubscript period "windDirection"
  let df ← pySubscript period "detailedForecast"
  pure ("\n            " ++ pyStr nm ++
        ":\n            Temperature: " ++ pyStr tp ++ "Â°" ++ pyStr tu ++
        "\n            Wind: " ++ pyStr ws ++ " " ++ pyStr wd ++
        "\n            Forecast: " ++ pyStr df ++
        "\n            ")

/-- Error payload for a missing ticker (lines 128-130). -/
def no_ticker_msg : String :=
  jsonDumps (.dict [("error",
    .str "No ticker symbol provided. Please provide a ticker symbol like TSLA, AAPL, etc.")])

/-- Error payload when the provider has no usable data (lines 141-143). -/
def no_data_msg (sym : String) : String :=
  jsonDumps (.dict [("error",
    .str ("Unable to fetch stock data for ticker symbol: " ++ sym ++
          ". Please check if the symbol is valid."))])

/-- Message text of a Python exception, as interpolated by `str(e)`. -/
def pyErrStr : PyErr → String
  | .jsonDecodeError m => m
  | .attributeError m => m
  | .keyError k => "\x27" ++ k ++ "\x27"
  | .typeError m => m

/-- Error payload of the `except json.JSONDecodeError` branch (lines 164-167). -/
def invalid_json_msg (e : PyErr) : String :=
  jsonDumps (.dict [("error", .str ("Invalid JSON context provided: " ++ pyErrStr e))])

/-- Error payload of the `except Exception` branch when `ticker_symbol` is not
yet in `locals()` (lines 169-172). -/
def stock_err_unknown (e : PyErr) : String :=
  jsonDumps (.dict [("error",
    .str ("Error fetching stock data for unknown ticker: " ++ pyErrStr e))])

/-- Error payload of the `except Exception` branch once `ticker_symbol` is
bound; `t` is `str(ticker_symbol)` at the moment the exception is caught. -/
def stock_err_for (t : String) (e : PyErr) : String :=
  jsonDumps (.dict [("error",
    .str ("Error fetching stock data for " ++ t ++ ": " ++ pyErrStr e))])

/-- The success payload of `mcp_get_stockprice` (lines 146-162): every field
is read with `info.get(field, default)`, which raises `AttributeError` when
`info` is not a dict. -/
def buildStockResult (info : PyVal) (sym today : String) : Except PyErr String := do
  let cp ← pyGetD info "currentPrice" (.str "N/A")
  let dl ← pyGetD info "dayLow" (.str "N/A")
  let dh ← pyGetD info "dayHigh" (.str "N/A")
  let op ← pyGetD info "open" (.str "N/A")
  let pc ← pyGetD info "previousClose" (.str "N/A")
  let mc ← pyGetD info "marketCap" (.str "N/A")
  let ln ← pyGetD info "longName" (.str sym)
  pure (jsonDumps (.dict
    [("symbol", .str sym), ("date", .str today), ("current_price", cp),
     ("day_low", dl), ("day_high", dh), ("opening_price", op),
     ("previous_close", pc), ("market_cap", mc), ("company_name", ln),
     ("link", .str ("https://finance.yahoo.com/quote/" ++ sym ++ "/"))]))

/-- Lines 136-162 of `mcp_get_stockprice`: query the provider with the
normalized symbol and build the response; all exceptions are still inside the
handler's `try`, so every branch returns a payload.  The second component is
the list of ticker symbols for which the provider was queried. -/
def stockprice_tail (yf : String → Except PyErr PyVal) (today sym : String) :
    Except PyErr String × List String :=
  match yf sym with
  | .error e => (.ok (stock_err_for sym e), [sym])
  | .ok info =>
    if info.truthy = false then (.ok (no_data_msg sym), [sym])
    else
      match pyContains info "currentPrice" with
      | .error e => (.ok (stock_err_for sym e), [sym])
      | .ok false => (.ok (no_data_msg sym), [sym])
      | .ok true =>
        match buildStockResult info sym today with
        | .error e => (.ok (stock_err_for sym e), [sym])
        | .ok out => (.ok out, [sym])

/-- The `mcp_get_stockprice` handler (lines 108-172).  `yf` models
`yf.Ticker(sym).info`, `today` models `datetime.today().strftime` and `ctx`
is the outcome of `json.loads(context)`.  The whole body sits inside
`try/except json.JSONDecodeError/except Exception`, so every exception is
converted into a returned JSON error payload.  The second component of the
result is the list of ticker symbols for which the provider was queried. -/
def mcp_get_stockprice (yf : String → Except PyErr PyVal) (today : String)
    (ctx : Except PyErr PyVal) : Except PyErr String × List String :=
  match ctx with
  | .error (.jsonDecodeError m) => (.ok (invalid_json_msg (.jsonDecodeError m)), [])
  | .error e => (.ok (stock_err_unknown e), [])
  | .ok mcp_data =>
    match pyGetD mcp_data "arguments" (.dict []) with
    | .error e => (.ok (stock_err_unknown e), [])
    | .ok args =>
      match pyGetD args "ticker" .none with
      | .error e => (.ok (stock_err_unknown e), [])
      | .ok tickerRaw =>
        if tickerRaw.truthy = false then (.ok no_ticker_msg, [])
        else
          match pyUpperStrip tickerRaw with
          | .error e => (.ok (stock_err_for (pyStr tickerRaw) e), [])
          | .ok sym => stockprice_tail yf today sym

/-- Lines 204-211 of `mcp_get_weatheralerts`: inspect the fetched document
`data` (the value after the guarded HTTP request to `url`) and build the
reply; exceptions raised here propagate, as the handler has no `try/except`
around this code. -/
def alerts_tail (data : PyVal) (url : String) : Except PyErr String × List String :=
  if data.truthy = false then
    (.ok "Unable to fetch alerts or no alerts found.", [url])
  else
    match pyContains data "features" with
    | .error e => (.error e, [url])
    | .ok false => (.ok "Unable to fetch alerts or no alerts found.", [url])
    | .ok true =>
      match pySubscript data "features" with
      | .error e => (.error e, [url])
      | .ok feats =>
        if feats.truthy = false then
          (.ok "No active alerts for this state.", [url])
        else
          match pyIter feats with
          | .error e => (.error e, [url])
          | .ok fs =>
            match mapExcept format_alert fs with
            | .error e => (.error e, [url])
            | .ok alerts => (.ok (String.intercalate "\n---\n" alerts), [url])

/-- The `mcp_get_weatheralerts` handler (lines 182-211).  There is no
top-level `try/except`: only the HTTP request itself is guarded, so
exceptions raised while parsing the context or formatting the response
propagate (modelled by a `.error` first component).  The second component is
the list of URLs requested. -/
def mcp_get_weatheralerts (net : String → PyVal) (ctx : Except PyErr PyVal) :
    Except PyErr String × List String :=
  match ctx with
  | .error e => (.error e, [])
  | .ok mcp_data =>
    match pyGetD mcp_data "arguments" (.dict []) with
    | .error e => (.error e, [])
    | .ok args =>
      match pyGetD args "state" .none with
      | .error e => (.error e, [])
      | .ok state => alerts_tail (net (alerts_url state)) (alerts_url state)

/-- Lines 250-273 of `mcp_get_weatherforecast`: the second (forecast) fetch
and the formatting of the first five periods.  `fdata` is the value of
`forecast_data` after the guarded request to `furl`. -/
def forecast_tail2 (fdata : PyVal) (purl furl : String) :
    Except PyErr String × List String :=
  if fdata.truthy = false then
    (.ok "Unable to fetch detailed forecast.", [purl, furl])
  else
    match pySubscript fdata "properties" with
    | .error e => (.error e, [purl, furl])
    | .ok fprops =>
      match pySubscript fprops "periods" with
      | .error e => (.error e, [purl, furl])
      | .ok periods =>
        match pySliceIter5 periods with
        | .error e => (.error e, [purl, furl])
        | .ok ps =>
          match mapExcept format_forecast_period ps with
          | .error e => (.error e, [purl, furl])
          | .ok forecasts =>
            (.ok (String.intercalate "\n---\n" forecasts), [purl, furl])

/-- Lines 235-273 of `mcp_get_weatherforecast`: the points fetch, extraction
of the forecast URL, and the second stage.  When
`points_data["properties"]["forecast"]` is not a string,
`client.get(forecast_url, ...)` raises inside the second `try` block and
`forecast_data` becomes `None` without a request being made. -/
def forecast_tail (net : String → PyVal) (purl : String) :
    Except PyErr String × List String :=
  let points_data := net purl
  if points_data.truthy = false then
    (.ok "Unable to fetch forecast data for this location.", [purl])
  else
    match pySubscript points_data "properties" with
    | .error e => (.error e, [purl])
    | .ok props =>
      match pySubscript props "forecast" with
      | .error e => (.error e, [purl])
      | .ok furlv =>
        match furlv with
        | .str furl => forecast_tail2 (net furl) purl furl
        | _ => (.ok "Unable to fetch detailed forecast.", [purl])

/-- The `mcp_get_weatherforecast` handler (lines 220-273).  As with the
alerts handler there is no top-level `try/except`; only the two HTTP requests
are individually guarded. -/
def mcp_get_weatherforecast (net : String → PyVal) (ctx : Except PyErr PyVal) :
    Except PyErr String × List String :=
  match ctx with
  | .error e => (.error e, [])
  | .ok mcp_data =>
    match pyGetD mcp_data "arguments" (.dict []) with
    | .error e => (.error e, [])
    | .ok args =>
      match pyGetD args "latitude" .none with
      | .error e => (.error e, [])
      | .ok latitude =>
        match pyGetD args "longitude" .none with
        | .error e => (.error e, [])
        | .ok longitude => forecast_tail net (points_url_of latitude longitude)

/-! ### Helper lemmas about the embedded Python primitives -/

theorem zip_lower_upper_facts :
    ∀ p ∈ lowerChars.zip upperChars, p.1 ∈ lowerChars ∧ p.2 ∈ upperChars := by decide

theorem pyUpperChar_cases (c : Char) :
    pyUpperChar c = c ∨ (c ∈ lowerChars ∧ pyUpperChar c ∈ upperChars) := by
  unfold pyUpperChar
  cases h : (lowerChars.zip upperChars).find? (fun p => p.1 == c) with
  | none => exact Or.inl rfl
  | some p =>
      have hmem := List.mem_of_find?_eq_some h
      have hpred := List.find?_some h
      have hc : p.1 = c := by simpa using hpred
      obtain ⟨h1, h2⟩ := zip_lower_upper_facts p hmem
      exact Or.inr ⟨hc ▸ h1, h2⟩

theorem upperChars_fixed : ∀ d ∈ upperChars, pyUpperChar d = d := by decide

theorem upperChars_nospace : ∀ d ∈ upperChars, pyIsSpace d = false := by decide

theorem lowerChars_nospace : ∀ d ∈ lowerChars, pyIsSpace d = false := by decide

theorem pyUpperChar_idem (c : Char) : pyUpperChar (pyUpperChar c) = pyUpperChar c := by
  rcases pyUpperChar_cases c with h | ⟨_, hu⟩
  · rw [h]
    exact h
  · exact upperChars_fixed _ hu

theorem pyIsSpace_upper (c : Char) : pyIsSpace (pyUpperChar c) = pyIsSpace c := by
  rcases pyUpperChar_cases c with h | ⟨hl, hu⟩
  · rw [h]
  · rw [upperChars_nospace _ hu, lowerChars_nospace _ hl]

theorem dropWhile_head_false {p : Char → Bool} :
    ∀ {l a u}, List.dropWhile p l = a :: u → p a = false := by
  intro l
  induction l with
  | nil => intro a u h; simp [List.dropWhile] at h
  | cons b l2 ih =>
      intro a u h
      rw [List.dropWhile_cons] at h
      by_cases hb : p b = true
      · rw [if_pos hb] at h
        exact ih h
      · rw [if_neg hb] at h
        cases h
        simpa using hb

theorem dropWhile_cons_self {p : Char → Bool} {a : Char} {u : List Char}
    (h : p a = false) : List.dropWhile p (a :: u) = a :: u := by
  simp [List.dropWhile_cons, h]

theorem dropWhile_idem (p : Char → Bool) (l : List Char) :
    List.dropWhile p (List.dropWhile p l) = List.dropWhile p l := by
  cases h : List.dropWhile p l with
  | nil => simp
  | cons a u => exact dropWhile_cons_self (dropWhile_head_false h)

theorem map_dropWhile (f : Char → Char) (p : Char → Bool) (hp : ∀ c, p (f c) = p c) :
    ∀ l, List.map f (List.dropWhile p l) = List.dropWhile p (List.map f l) := by
  intro l
  induction l with
  | nil => simp
  | cons a u ih =>
      cases hpa : p a with
      | true => simp [List.dropWhile_cons, hp, hpa, ih]
      | false => simp [List.dropWhile_cons, hp, hpa]

theorem stripL_stripL (l : List Char) : stripL (stripL l) = stripL l :=
  dropWhile_idem pyIsSpace l

theorem stripL_stripR_of_fix {m : List Char} (hm : stripL m = m) :
    stripL (stripR m) = stripR m := by
  unfold stripL at hm ⊢
  cases h : stripR m with
  | nil => rfl
  | cons a u =>
      have hsplit := List.takeWhile_append_dropWhile (p := pyIsSpace) (l := m.reverse)
      have h2 : (List.dropWhile pyIsSpace m.reverse).reverse ++
          (List.takeWhile pyIsSpace m.reverse).reverse = m := by
        have h3 := congrArg List.reverse hsplit
        rw [List.reverse_append, List.reverse_reverse] at h3
        exact h3
      rw [show stripR m = (List.dropWhile pyIsSpace m.reverse).reverse from rfl] at h
      rw [h, List.cons_append] at h2
      have hm3 : List.dropWhile pyIsSpace
          (a :: (u ++ (List.takeWhile pyIsSpace m.reverse).reverse)) =
          a :: (u ++ (List.takeWhile pyIsSpace m.reverse).reverse) := by
        rw [h2]
        exact hm
      exact dropWhile_cons_self (dropWhile_head_false hm3)

theorem stripR_stripR (m : List Char) : stripR (stripR m) = stripR m := by
  unfold stripR
  rw [List.reverse_reverse, dropWhile_idem]

theorem stripBoth_idem (l : List Char) : stripBoth (stripBoth l) = stripBoth l := by
  unfold stripBoth
  rw [stripL_stripR_of_fix (stripL_stripL l), stripR_stripR]

theorem map_stripL (f : Char → Char) (hp : ∀ c, pyIsSpace (f c) = pyIsSpace c)
    (l : List Char) : List.map f (stripL l) = stripL (List.map f l) :=
  map_dropWhile f pyIsSpace hp l

theorem map_stripR (f : Char → Char) (hp : ∀ c, pyIsSpace (f c) = pyIsSpace c)
    (l : List Char) : List.map f (stripR l) = stripR (List.map f l) := by
  unfold stripR
  rw [List.map_reverse, map_dropWhile f pyIsSpace hp, List.map_reverse]

theorem map_stripBoth (f : Char → Char) (hp : ∀ c, pyIsSpace (f c) = pyIsSpace c)
    (l : List Char) : List.map f (stripBoth l) = stripBoth (List.map f l) := by
  unfold stripBoth
  rw [map_stripR f hp, map_stripL f hp]

theorem map_upper_upper (l : List Char) :
    List.map pyUpperChar (List.map pyUpperChar l) = List.map pyUpperChar l := by
  induction l with
  | nil => rfl
  | cons a u ih => simp [List.map_cons, pyUpperChar_idem, ih]

theorem pyNormalize_idem (s : String) : pyNormalize (pyNormalize s) = pyNormalize s := by
  show String.mk (stripBoth (List.map pyUpperChar (stripBoth (List.map pyUpperChar s.data)))) =
    String.mk (stripBoth (List.map pyUpperChar s.data))
  rw [map_stripBoth pyUpperChar pyIsSpace_upper, map_upper_upper, stripBoth_idem]

theorem mapExcept_length {f : PyVal → Except PyErr String} :
    ∀ {l : List PyVal} {bs : List String}, mapExcept f l = .ok bs → bs.length = l.length := by
  intro l
  induction l with
  | nil =>
      intro bs h
      simp only [mapExcept] at h
      cases h
      rfl
  | cons x xs ih =>
      intro bs h
      simp only [mapExcept] at h
      cases hfx : f x with
      | error e => rw [hfx] at h; cases h
      | ok s =>
          rw [hfx] at h
          cases hrec : mapExcept f xs with
          | error e => rw [hrec] at h; cases h
          | ok ss =>
              rw [hrec] at h
              cases h
              simp [ih hrec]

/-- Value bound by `args.get(key)` when the handler is invoked with a parsed
arguments dict: the stored value, or Python `None` when the key is absent. -/
def argVal (argkvs : List (String × PyVal)) (k : String) : PyVal :=
  (pyLookup argkvs k).getD .none

theorem weatheralerts_on_ctx (net : String → PyVal) (argkvs : List (String × PyVal)) :
    mcp_get_weatheralerts net (mkCtx argkvs) =
      alerts_tail (net (alerts_url (argVal argkvs "state")))
        (alerts_url (argVal argkvs "state")) := rfl

theorem weatherforecast_on_ctx (net : String → PyVal) (argkvs : List (String × PyVal)) :
    mcp_get_weatherforecast net (mkCtx argkvs) =
      forecast_tail net
        (points_url_of (argVal argkvs "latitude") (argVal argkvs "longitude")) := rfl

theorem stockprice_on_ctx (yf : String → Except PyErr PyVal) (today : String)
    (argkvs : List (String × PyVal)) :
    mcp_get_stockprice yf today (mkCtx argkvs) =
      (if (argVal argkvs "ticker").truthy = false then (.ok no_ticker_msg, [])
       else
         match pyUpperStrip (argVal argkvs "ticker") with
         | .error e => (.ok (stock_err_for (pyStr (argVal argkvs "ticker")) e), [])
         | .ok sym => stockprice_tail yf today sym) := rfl

theorem dict_truthy_of_lookup {kvs : List (String × PyVal)} {k : String} {v : PyVal}
    (h : pyLookup kvs k = some v) : (PyVal.dict kvs).truthy = true := by
  cases kvs with
  | nil => simp [pyLookup] at h
  | cons a l => simp [PyVal.truthy]

theorem pySubscript_dict_of_lookup {kvs : List (String × PyVal)} {k : String} {v : PyVal}
    (h : pyLookup kvs k = some v) : pySubscript (.dict kvs) k = .ok v := by
  show (match pyLookup kvs k with
        | some x => (Except.ok x : Except PyErr PyVal)
        | Option.none => .error (.keyError k)) = .ok v
  rw [h]

/-! ### Claims -/

/-- Claim C3: in `mcp_get_weatheralerts`, a failed fetch (falsy `data`) and a
fetched document without a `"features"` key both yield exactly
`"Unable to fetch alerts or no alerts found."`, while a present-but-empty
`"features"` list yields exactly `"No active alerts for this state."`. -/
theorem C3_thm :
    (∀ (net : String → PyVal) (argkvs : List (String × PyVal)),
       (net (alerts_url (argVal argkvs "state"))).truthy = false →
       (mcp_get_weatheralerts net (mkCtx argkvs)).1 =
         .ok "Unable to fetch alerts or no alerts found.") ∧
    (∀ (net : String → PyVal) (argkvs : List (String × PyVal))
       (kvs : List (String × PyVal)),
       net (alerts_url (argVal argkvs "state")) = .dict kvs →
       pyLookup kvs "features" = Option.none →
       (mcp_get_weatheralerts net (mkCtx argkvs)).1 =
         .ok "Unable to fetch alerts or no alerts found.") ∧
    (∀ (net : String → PyVal) (argkvs : List (String × PyVal))
       (kvs : List (String × PyVal)),
       net (alerts_url (argVal argkvs "state")) = .dict kvs →
       pyLookup kvs "features" = some (.list []) →
       (mcp_get_weatheralerts net (mkCtx argkvs)).1 =
         .ok "No active alerts for this state.") := by
  refine ⟨?_, ?_, ?_⟩
  · intro net argkvs h
    rw [weatheralerts_on_ctx]
    unfold alerts_tail
    simp [h]
  · intro net argkvs kvs h1 h2
    rw [weatheralerts_on_ctx]
    unfold alerts_tail
    by_cases hk : (PyVal.dict kvs).truthy = false
    · simp [h1, hk]
    · simp [h1, hk, pyContains, h2]
  · intro net argkvs kvs h1 h2
    rw [weatheralerts_on_ctx]
    unfold alerts_tail
    rw [h1, dict_truthy_of_lookup h2]
    simp [pyContains, h2, pySubscript_dict_of_lookup h2, PyVal.truthy]

/-- Witness for C3 at concrete inputs: a timed-out fetch (`None`), a document
without `"features"`, and a document with an empty `"features"` list. -/
theorem C3_witness :
    (mcp_get_weatheralerts (fun _ => PyVal.none)
        (mkCtx [("state", PyVal.str "NJ")])).1 =
      .ok "Unable to fetch alerts or no alerts found." ∧
    (mcp_get_weatheralerts (fun _ => PyVal.dict [("x", PyVal.int 1)])
        (mkCtx [("state", PyVal.str "NJ")])).1 =
      .ok "Unable to fetch alerts or no alerts found." ∧
    (mcp_get_weatheralerts (fun _ => PyVal.dict [("features", PyVal.list [])])
        (mkCtx [("state", PyVal.str "NJ")])).1 =
      .ok "No active alerts for this state." :=
  ⟨C3_thm.1 _ _ rfl, C3_thm.2.1 _ _ _ rfl rfl, C3_thm.2.2 _ _ _ rfl rfl⟩

/-- Claim C10: the `"No active alerts for this state."` branch only requires
the `"features"` value to be falsy, not to be an empty list: `null`, `false`,
`0`, `""`, `{}` all take it. -/
theorem C10_thm :
    ∀ (net : String → PyVal) (argkvs kvs : List (String × PyVal)) (v : PyVal),
      net (alerts_url (argVal argkvs "state")) = .dict kvs →
      pyLookup kvs "features" = some v →
      v.truthy = false →
      (mcp_get_weatheralerts net (mkCtx argkvs)).1 =
        .ok "No active alerts for this state." := by
  intro net argkvs kvs v h1 h2 hv
  rw [weatheralerts_on_ctx]
  unfold alerts_tail
  rw [h1, dict_truthy_of_lookup h2]
  simp [pyContains, h2, pySubscript_dict_of_lookup h2, hv]

/-- Witness for C10: `"features"` bound to JSON `null` still produces
`"No active alerts for this state."`. -/
theorem C10_witness :
    (mcp_get_weatheralerts (fun _ => PyVal.dict [("features", PyVal.none)])
        (mkCtx [("state", PyVal.str "NJ")])).1 =
      .ok "No active alerts for this state." :=
  C10_thm _ _ _ _ rfl rfl rfl

theorem list_truthy_of_ne_nil {fs : List PyVal} (h : fs ≠ []) :
    (PyVal.list fs).truthy = true := by
  cases fs with
  | nil => exact absurd rfl h
  | cons a l => simp [PyVal.truthy]

/-- Claim C4: in `mcp_get_weatherforecast`, a failed or empty points response
produces exactly `"Unable to fetch forecast data for this location."` with no
second request, and a successful points response followed by a failed
forecast fetch produces exactly `"Unable to fetch detailed forecast."`. -/
theorem C4_thm :
    (∀ (net : String → PyVal) (argkvs : List (String × PyVal)),
       (net (points_url_of (argVal argkvs "latitude") (argVal argkvs "longitude"))).truthy
           = false →
       mcp_get_weatherforecast net (mkCtx argkvs) =
         (.ok "Unable to fetch forecast data for this location.",
          [points_url_of (argVal argkvs "latitude") (argVal argkvs "longitude")])) ∧
    (∀ (net : String → PyVal) (argkvs : List (String × PyVal))
       (pkvs prkvs : List (String × PyVal)) (furl : String),
       net (points_url_of (argVal argkvs "latitude") (argVal argkvs "longitude"))
           = .dict pkvs →
       pyLookup pkvs "properties" = some (.dict prkvs) →
       pyLookup prkvs "forecast" = some (.str furl) →
       (net furl).truthy = false →
       mcp_get_weatherforecast net (mkCtx argkvs) =
         (.ok "Unable to fetch detailed forecast.",
          [points_url_of (argVal argkvs "latitude") (argVal argkvs "longitude"), furl])) := by
  constructor
  · intro net argkvs h
    rw [weatherforecast_on_ctx]
    unfold forecast_tail
    simp [h]
  · intro net argkvs pkvs prkvs furl h1 h2 h3 h4
    rw [weatherforecast_on_ctx]
    simp only [forecast_tail]
    rw [h1, dict_truthy_of_lookup h2]
    simp [pySubscript_dict_of_lookup h2, pySubscript_dict_of_lookup h3,
      forecast_tail2, h4]

/-- Witness for C4: a dead network (points call fails), and a points document
whose forecast URL then fails to fetch. -/
theorem C4_witness :
    mcp_get_weatherforecast (fun _ => PyVal.none)
        (mkCtx [("latitude", PyVal.str "40.7"), ("longitude", PyVal.str "-74.0")]) =
      (.ok "Unable to fetch forecast data for this location.",
       ["https://api.weather.gov/points/40.7,-74.0"]) ∧
    mcp_get_weatherforecast
        (fun u =>
          if u == "https://api.weather.gov/points/40.7,-74.0" then
            PyVal.dict [("properties",
              PyVal.dict [("forecast", PyVal.str "https://example.org/forecast")])]
          else PyVal.none)
        (mkCtx [("latitude", PyVal.str "40.7"), ("longitude", PyVal.str "-74.0")]) =
      (.ok "Unable to fetch detailed forecast.",
       ["https://api.weather.gov/points/40.7,-74.0", "https://example.org/forecast"]) :=
  ⟨C4_thm.1 _ _ rfl, C4_thm.2 _ _ _ _ _ rfl rfl rfl rfl⟩

/-- Claim C7: on a successful forecast response the handler formats only the
first five periods, joined by the `"\n---\n"` separator; with more than five
periods it formats exactly five blocks. -/
theorem C7_thm :
    ∀ (net : String → PyVal) (argkvs : List (String × PyVal))
      (pkvs prkvs fkvs fprkvs : List (String × PyVal)) (furl : String)
      (ps : List PyVal) (blocks : List String),
      net (points_url_of (argVal argkvs "latitude") (argVal argkvs "longitude"))
          = .dict pkvs →
      pyLookup pkvs "properties" = some (.dict prkvs) →
      pyLookup prkvs "forecast" = some (.str furl) →
      net furl = .dict fkvs →
      pyLookup fkvs "properties" = some (.dict fprkvs) →
      pyLookup fprkvs "periods" = some (.list ps) →
      mapExcept format_forecast_period (ps.take 5) = .ok blocks →
      mcp_get_weatherforecast net (mkCtx argkvs) =
        (.ok (String.intercalate "\n---\n" blocks),
         [points_url_of (argVal argkvs "latitude") (argVal argkvs "longitude"), furl]) ∧
      blocks.length ≤ 5 ∧ (5 < ps.length → blocks.length = 5) := by
  intro net argkvs pkvs prkvs fkvs fprkvs furl ps blocks h1 h2 h3 h4 h5 h6 h7
  have hlen := mapExcept_length h7
  rw [List.length_take] at hlen
  refine ⟨?_, by omega, fun h5lt => by omega⟩
  rw [weatherforecast_on_ctx]
  simp only [forecast_tail]
  rw [h1, dict_truthy_of_lookup h2]
  simp only [pySubscript_dict_of_lookup h2, pySubscript_dict_of_lookup h3]
  simp only [forecast_tail2]
  rw [h4, dict_truthy_of_lookup h5]
  simp [pySubscript_dict_of_lookup h5, pySubscript_dict_of_lookup h6,
    pySliceIter5, h7]

theorem stockprice_tail_ok (yf : String → Except PyErr PyVal) (today sym : String) :
    ∃ s, (stockprice_tail yf today sym).1 = .ok s := by
  unfold stockprice_tail
  repeat' split
  all_goals exact ⟨_, rfl⟩

theorem stockprice_tail_log (yf : String → Except PyErr PyVal) (today sym : String) :
    (stockprice_tail yf today sym).2 = [sym] := by
  unfold stockprice_tail
  repeat' split
  all_goals rfl

theorem alerts_tail_log (data : PyVal) (url : String) :
    (alerts_tail data url).2 = [url] := by
  unfold alerts_tail
  repeat' split
  all_goals rfl

theorem forecast_tail_head (net : String → PyVal) (purl : String) :
    ((forecast_tail net purl).2).head? = some purl := by
  simp only [forecast_tail, forecast_tail2]
  repeat' split
  all_goals rfl

/-- Counterexample to C1: the weather handlers have no top-level `try/except`,
so a context string that is not valid JSON makes `json.loads(context)` raise
and the exception propagates to the host instead of becoming a return value. -/
theorem C1_cex :
    (mcp_get_weatheralerts (fun _ => PyVal.none)
        (.error (.jsonDecodeError "Expecting value: line 1 column 1 (char 0)"))).1 =
      .error (.jsonDecodeError "Expecting value: line 1 column 1 (char 0)") := rfl

/-- Claim C1 (amended): `hello_mcp` and `mcp_get_stockprice` return a value
for every input and never propagate an exception; for the two weather
handlers only the HTTP-call failure paths are guaranteed to resolve to a
returned value (shown here for a failed fetch), while exceptions raised
outside the guarded request — e.g. by `json.loads` on a malformed context —
propagate. -/
theorem C1_thm :
    (∀ c : String, hello_mcp c = "Hello I am MCPTool!") ∧
    (∀ (yf : String → Except PyErr PyVal) (today : String) (ctx : Except PyErr PyVal),
       ∃ s, (mcp_get_stockprice yf today ctx).1 = .ok s) ∧
    (∀ (net : String → PyVal) (argkvs : List (String × PyVal)),
       (net (alerts_url (argVal argkvs "state"))).truthy = false →
       (mcp_get_weatheralerts net (mkCtx argkvs)).1 =
         .ok "Unable to fetch alerts or no alerts found.") ∧
    (∀ (net : String → PyVal) (argkvs : List (String × PyVal)),
       (net (points_url_of (argVal argkvs "latitude")
           (argVal argkvs "longitude"))).truthy = false →
       (mcp_get_weatherforecast net (mkCtx argkvs)).1 =
         .ok "Unable to fetch forecast data for this location.") := by
  refine ⟨fun c => rfl, ?_, ?_, ?_⟩
  · intro yf today ctx
    cases ctx with
    | error e => cases e <;> exact ⟨_, rfl⟩
    | ok mcp_data =>
        simp only [mcp_get_stockprice]
        repeat' split
        all_goals first
          | exact ⟨_, rfl⟩
          | exact stockprice_tail_ok yf today _
  · intro net argkvs h
    rw [weatheralerts_on_ctx]
    unfold alerts_tail
    simp [h]
  · intro net argkvs h
    rw [weatherforecast_on_ctx]
    simp only [forecast_tail]
    simp [h]

/-- Witness for C1 (amended) at concrete inputs. -/
theorem C1_witness :
    hello_mcp "whatever" = "Hello I am MCPTool!" ∧
    (∃ s, (mcp_get_stockprice (fun _ => .ok PyVal.none) "2026-01-01"
        (.error (.jsonDecodeError "Expecting value"))).1 = .ok s) ∧
    (mcp_get_weatheralerts (fun _ => PyVal.none)
        (mkCtx [("state", PyVal.str "NJ")])).1 =
      .ok "Unable to fetch alerts or no alerts found." ∧
    (mcp_get_weatherforecast (fun _ => PyVal.none)
        (mkCtx [("latitude", PyVal.str "40.7"), ("longitude", PyVal.str "-74.0")])).1 =
      .ok "Unable to fetch forecast data for this location." :=
  ⟨C1_thm.1 _, C1_thm.2.1 _ _ _, C1_thm.2.2.1 _ _ rfl, C1_thm.2.2.2 _ _ rfl⟩

/-- Counterexample to C2: invoked with no `state` argument at all,
`mcp_get_weatheralerts` still performs one external HTTP request (with the
string `"None"` interpolated into the URL) instead of zero. -/
theorem C2_cex :
    (mcp_get_weatheralerts (fun _ => PyVal.none) (mkCtx [])).2.length = 1 := rfl

/-- Claim C2 (amended): only `mcp_get_stockprice` validates its required
argument — a missing `ticker` yields the error payload with zero provider
queries; the weather handlers perform their HTTP request(s) even when the
required arguments are missing, interpolating Python `None` into the URL. -/
theorem C2_thm :
    (∀ (yf : String → Except PyErr PyVal) (today : String)
       (argkvs : List (String × PyVal)),
       pyLookup argkvs "ticker" = Option.none →
       mcp_get_stockprice yf today (mkCtx argkvs) = (.ok no_ticker_msg, [])) ∧
    (∀ (net : String → PyVal) (argkvs : List (String × PyVal)),
       pyLookup argkvs "state" = Option.none →
       (mcp_get_weatheralerts net (mkCtx argkvs)).2 =
         ["https://api.weather.gov/alerts/active/area/None"]) ∧
    (∀ (net : String → PyVal) (argkvs : List (String × PyVal)),
       pyLookup argkvs "latitude" = Option.none →
       pyLookup argkvs "longitude" = Option.none →
       (mcp_get_weatherforecast net (mkCtx argkvs)).2.head? =
         some "https://api.weather.gov/points/None,None") := by
  refine ⟨?_, ?_, ?_⟩
  · intro yf today argkvs h
    rw [stockprice_on_ctx]
    simp [argVal, h, PyVal.truthy]
  · intro net argkvs h
    rw [weatheralerts_on_ctx, alerts_tail_log]
    simp only [argVal, h, Option.getD_none]
    rfl
  · intro net argkvs h1 h2
    rw [weatherforecast_on_ctx, forecast_tail_head]
    simp only [argVal, h1, h2, Option.getD_none]
    rfl

/-- Witness for C2 (amended) at concrete inputs: empty argument dicts. -/
theorem C2_witness :
    mcp_get_stockprice (fun _ => .ok PyVal.none) "2026-01-01" (mkCtx []) =
      (.ok no_ticker_msg, []) ∧
    (mcp_get_weatheralerts (fun _ => PyVal.none) (mkCtx [])).2 =
      ["https://api.weather.gov/alerts/active/area/None"] ∧
    (mcp_get_weatherforecast (fun _ => PyVal.none) (mkCtx [])).2.head? =
      some "https://api.weather.gov/points/None,None" :=
  ⟨C2_thm.1 _ _ [] rfl, C2_thm.2.1 _ [] rfl, C2_thm.2.2 _ [] rfl rfl⟩

/-- Claim C5: ticker normalization (`.upper().strip()`) is idempotent, and
the inputs `"aapl"`, `" AAPL "`, `"AAPL"` all make the handler query the
quote provider with exactly `"AAPL"` (the query log is the second component
of the handler's result). -/
theorem C5_thm :
    (∀ s : String, pyNormalize (pyNormalize s) = pyNormalize s) ∧
    pyNormalize "aapl" = "AAPL" ∧
    pyNormalize " AAPL " = "AAPL" ∧
    pyNormalize "AAPL" = "AAPL" ∧
    (∀ (yf : String → Except PyErr PyVal) (today : String),
       (mcp_get_stockprice yf today (mkCtx [("ticker", PyVal.str "aapl")])).2 =
         ["AAPL"]) ∧
    (∀ (yf : String → Except PyErr PyVal) (today : String),
       (mcp_get_stockprice yf today (mkCtx [("ticker", PyVal.str " AAPL ")])).2 =
         ["AAPL"]) ∧
    (∀ (yf : String → Except PyErr PyVal) (today : String),
       (mcp_get_stockprice yf today (mkCtx [("ticker", PyVal.str "AAPL")])).2 =
         ["AAPL"]) := by
  refine ⟨pyNormalize_idem, by decide, by decide, by decide, ?_, ?_, ?_⟩ <;>
    exact fun yf today => stockprice_tail_log yf today "AAPL"

/-- Claim C6: when the provider's info record is empty, `None`, or lacks a
`currentPrice` key, `mcp_get_stockprice` returns (never raises) the JSON
error payload `no_data_msg`, whose message names the normalized ticker. -/
theorem C6_thm :
    ∀ (yf : String → Except PyErr PyVal) (today : String)
      (argkvs : List (String × PyVal)) (t : String) (info : PyVal),
      pyLookup argkvs "ticker" = some (.str t) →
      (PyVal.str t).truthy = true →
      yf (pyNormalize t) = .ok info →
      (info.truthy = false ∨
        ∃ kvs, info = .dict kvs ∧ pyLookup kvs "currentPrice" = Option.none) →
      (mcp_get_stockprice yf today (mkCtx argkvs)).1 =
        .ok (no_data_msg (pyNormalize t)) := by
  intro yf today argkvs t info h1 h2 h3 h4
  rw [stockprice_on_ctx]
  have hv : argVal argkvs "ticker" = .str t := by simp [argVal, h1]
  rw [hv, h2]
  rcases h4 with hfal | ⟨kvs, rfl, hk⟩
  · simp [pyUpperStrip, stockprice_tail, h3, hfal]
  · by_cases hd : (PyVal.dict kvs).truthy = false
    · simp [pyUpperStrip, stockprice_tail, h3, hd]
    · simp [pyUpperStrip, stockprice_tail, h3, hd, pyContains, hk]

/-- Witness for C6: a provider record with no `currentPrice` key makes the
handler return the `no_data_msg` payload for the normalized ticker. -/
theorem C6_witness :
    (mcp_get_stockprice
        (fun _ => .ok (PyVal.dict [("longName", PyVal.str "Apple Inc.")]))
        "2026-01-01" (mkCtx [("ticker", PyVal.str "aapl")])).1 =
      .ok (no_data_msg "AAPL") := by
  have h := C6_thm (fun _ => .ok (PyVal.dict [("longName", PyVal.str "Apple Inc.")]))
      "2026-01-01" [("ticker", PyVal.str "aapl")] "aapl"
      (PyVal.dict [("longName", PyVal.str "Apple Inc.")]) rfl rfl rfl
      (Or.inr ⟨_, rfl, rfl⟩)
  rw [show pyNormalize "aapl" = "AAPL" from by decide] at h
  exact h

/-- Claim C9: a `ticker` argument that is truthy but not a string (e.g. a
JSON number) makes normalization raise `AttributeError`, which the top-level
`except` converts into a returned JSON object with an `"error"` key. -/
theorem C9_thm :
    ∀ (yf : String → Except PyErr PyVal) (today : String)
      (argkvs : List (String × PyVal)) (v : PyVal),
      pyLookup argkvs "ticker" = some v →
      v.truthy = true →
      (∀ s, v ≠ PyVal.str s) →
      ∃ m, (mcp_get_stockprice yf today (mkCtx argkvs)).1 =
        .ok (jsonDumps (.dict [("error", .str m)])) := by
  intro yf today argkvs v h1 h2 h3
  rw [stockprice_on_ctx]
  have hv : argVal argkvs "ticker" = v := by simp [argVal, h1]
  rw [hv]
  cases v with
  | str s => exact absurd rfl (h3 s)
  | none => simp [PyVal.truthy] at h2
  | bool b =>
      cases b with
      | false => simp [PyVal.truthy] at h2
      | true => exact ⟨_, rfl⟩
  | int n =>
      simp only [PyVal.truthy] at h2
      simp [PyVal.truthy, h2]
      exact ⟨_, rfl⟩
  | list xs =>
      simp only [PyVal.truthy] at h2
      simp [PyVal.truthy, h2]
      exact ⟨_, rfl⟩
  | dict kvs =>
      simp only [PyVal.truthy] at h2
      simp [PyVal.truthy, h2]
      exact ⟨_, rfl⟩

/-- Witness for C9: `ticker` bound to the JSON number `42`. -/
theorem C9_witness :
    ∃ m, (mcp_get_stockprice (fun _ => .ok PyVal.none) "2026-01-01"
        (mkCtx [("ticker", PyVal.int 42)])).1 =
      .ok (jsonDumps (.dict [("error", .str m)])) :=
  C9_thm _ _ _ _ rfl rfl (fun _ h => PyVal.noConfusion h)

/-- Counterexample to C8: a response with the non-empty features list
`[{}]` makes `format_alert` raise `KeyError("properties")`, which propagates
out of `mcp_get_weatheralerts` instead of being formatted into a block. -/
theorem C8_cex :
    (mcp_get_weatheralerts
        (fun _ => PyVal.dict [("features", PyVal.list [PyVal.dict []])])
        (mkCtx [("state", PyVal.str "NJ")])).1 =
      .error (.keyError "properties") := rfl

/-- Claim C8 (amended): for every response with a non-empty `"features"`
list all of whose features format successfully (each feature being an object
with a `"properties"` object), the handler returns the blocks joined by
`"\n---\n"`; each of the five fields of a block falls back to its
`"Unknown"`/placeholder default when absent, as the fully-defaulted block
shows.  A feature without `"properties"` instead raises `KeyError`. -/
theorem C8_thm :
    (∀ (net : String → PyVal) (argkvs kvs : List (String × PyVal))
       (fs : List PyVal) (blocks : List String),
       net (alerts_url (argVal argkvs "state")) = .dict kvs →
       pyLookup kvs "features" = some (.list fs) →
       fs ≠ [] →
       mapExcept format_alert fs = .ok blocks →
       mcp_get_weatheralerts net (mkCtx argkvs) =
         (.ok (String.intercalate "\n---\n" blocks),
          [alerts_url (argVal argkvs "state")])) ∧
    format_alert (.dict [("properties", .dict [])]) =
      .ok ("\n        Event: Unknown\n        Area: Unknown\n        Severity: Unknown\n        Description: No description available\n        Instructions: No specific instructions provided\n        ") := by
  constructor
  · intro net argkvs kvs fs blocks h1 h2 h3 h4
    rw [weatheralerts_on_ctx]
    unfold alerts_tail
    rw [h1, dict_truthy_of_lookup h2]
    simp [pyContains, h2, pySubscript_dict_of_lookup h2,
      list_truthy_of_ne_nil h3, pyIter, h4]
  · rfl

/-- Witness for C8 (amended): one feature with only an `event` property; the
remaining fields take their defaults and the single block is returned. -/
theorem C8_witness :
    mcp_get_weatheralerts
        (fun _ => PyVal.dict [("features", PyVal.list
          [PyVal.dict [("properties",
            PyVal.dict [("event", PyVal.str "Flood Warning")])]])])
        (mkCtx [("state", PyVal.str "NJ")]) =
      (.ok (String.intercalate "\n---\n"
        ["\n        Event: Flood Warning\n        Area: Unknown\n        Severity: Unknown\n        Description: No description available\n        Instructions: No specific instructions provided\n        "]),
       ["https://api.weather.gov/alerts/active/area/NJ"]) ∧
    format_alert (.dict [("properties", .dict [])]) =
      .ok ("\n        Event: Unknown\n        Area: Unknown\n        Severity: Unknown\n        Description: No description available\n        Instructions: No specific instructions provided\n        ") :=
  ⟨C8_thm.1 _ _ _ _ _ rfl rfl (List.cons_ne_nil _ _) rfl, C8_thm.2⟩

/-- Witness for C7: a stubbed forecast flow supplying 20 identical periods;
exactly five blocks are formatted and joined. -/
theorem C7_witness :
    mcp_get_weatherforecast
        (fun u =>
          if u == "https://api.weather.gov/points/40.7,-74.0" then
            PyVal.dict [("properties",
              PyVal.dict [("forecast", PyVal.str "https://example.org/forecast")])]
          else if u == "https://example.org/forecast" then
            PyVal.dict [("properties",
              PyVal.dict [("periods",
                PyVal.list (List.replicate 20 (PyVal.dict
                  [("name", PyVal.str "Tonight"), ("temperature", PyVal.int 60),
                   ("temperatureUnit", PyVal.str "F"),
                   ("windSpeed", PyVal.str "5 mph"),
                   ("windDirection", PyVal.str "NW"),
                   ("detailedForecast", PyVal.str "Clear.")])))])]
          else PyVal.none)
        (mkCtx [("latitude", PyVal.str "40.7"), ("longitude", PyVal.str "-74.0")]) =
      (.ok (String.intercalate "\n---\n" (List.replicate 5
        "\n            Tonight:\n            Temperature: 60Â°F\n            Wind: 5 mph NW\n            Forecast: Clear.\n            ")),
       ["https://api.weather.gov/points/40.7,-74.0", "https://example.org/forecast"]) ∧
    (List.replicate 5
        "\n            Tonight:\n            Temperature: 60Â°F\n            Wind: 5 mph NW\n            Forecast: Clear.\n            ").length ≤ 5 ∧
    (5 < (List.replicate 20 (PyVal.dict
        [("name", PyVal.str "Tonight"), ("temperature", PyVal.int 60),
         ("temperatureUnit", PyVal.str "F"), ("windSpeed", PyVal.str "5 mph"),
         ("windDirection", PyVal.str "NW"),
         ("detailedForecast", PyVal.str "Clear.")])).length →
      (List.replicate 5
        "\n            Tonight:\n            Temperature: 60Â°F\n            Wind: 5 mph NW\n            Forecast: Clear.\n            ").length = 5) :=
  C7_thm _ _ _ _ _ _ _ _ _ rfl rfl rfl rfl rfl rfl rfl
